import Mathlib

/-!
# Verification of the request/response tracking and assertion core

Shallow embedding of the HTTP-client core, metrics aggregation, concurrent
load runner and failure reporter of the Banking-API BDD framework
(`features/support/api/base_api.py`, `support/clients/api_client.py`,
`features/environment.py`, `features/steps/http_steps.py`,
`features/steps/performance_steps.py`), together with theorems settling the
spec claims about them.

Network effects are abstracted: each attempt's outcome (a status code, or a
raised request exception) is supplied as an explicit input, so the embedded
functions are the deterministic bookkeeping the Python code performs around
those outcomes.
-/

namespace ApiFramework

/-- HTTP methods handled by the client core (`_make_request` callers) plus the
additional methods named in the retry allowlist of `_setup_retry_strategy`. -/
inductive Method where
  | GET | POST | PUT | DELETE | PATCH | HEAD | OPTIONS | TRACE
deriving DecidableEq, Repr

/-! ## Retry policy

`BaseAPI._setup_retry_strategy` (base_api.py lines 46-56) and
`APIClient._setup_retry_strategy` (api_client.py lines 48-58) both build

    Retry(total=self.retry_count,
          status_forcelist=[429, 500, 502, 503, 504],
          allowed_methods=["HEAD", "GET", "PUT", "DELETE", "OPTIONS", "TRACE"],
          backoff_factor=1)

(`api_client.py` spells the allowlist argument with its older name
`method_whitelist`; the semantics are identical) and mount it on the session.
The retry engine itself lives in urllib3, outside this repository; the slice
of it that the claims depend on is embedded below from urllib3's documented
`Retry` semantics: a response whose method is in the allowlist and whose
status is in `status_forcelist` is retried, each retry decrements `total`,
and when a retry would push `total` below zero the pool raises
`MaxRetryError` (surfaced by requests as `RetryError`) because the
constructor default `raise_on_status=True` is left in place — it does not
return the final response. -/

/-- Status codes that force a retry (`status_forcelist` in
`_setup_retry_strategy`). -/
def statusForcelist : List Nat := [429, 500, 502, 503, 504]

/-- Methods the retry strategy is allowed to repeat (`allowed_methods` /
`method_whitelist` in `_setup_retry_strategy`). -/
def allowedMethods : List Method :=
  [.HEAD, .GET, .PUT, .DELETE, .OPTIONS, .TRACE]

/-- Models urllib3 `Retry._is_method_retryable`: with an allowlist configured,
a method is retryable exactly when it is in the allowlist. -/
def isMethodRetryable (m : Method) : Bool := allowedMethods.contains m

/-- Models urllib3 `Retry.is_retry` for the configured strategy: the method
must be retryable and the status must be in the forcelist. (The library's
extra `Retry-After` branch also requires the method to be retryable, and the
claims only concern forcelist statuses, so this is the exact slice used.) -/
def isRetry (m : Method) (status : Nat) : Bool :=
  isMethodRetryable m && statusForcelist.contains status

/-- Outcome of the urllib3 connection-pool loop for one logical call:
either a response handed back to requests, or a `MaxRetryError` raised after
exhausting the status retries; both carry the number of network attempts
actually performed. -/
inductive UrlopenResult where
  | response (status : Nat) (attempts : Nat)
  | maxRetryError (attempts : Nat)
deriving DecidableEq, Repr

/-- Models the urllib3 `HTTPConnectionPool.urlopen` retry loop under the
strategy of `_setup_retry_strategy`. `statuses` scripts the status code each
successive network attempt would receive; `total` is the remaining retry
budget and `attempts` the attempts performed so far. A retryable response
decrements the budget and goes around again; when the decrement would drop
the budget below zero, the default `raise_on_status=True` makes the pool
raise `MaxRetryError` instead of returning the final response. An exhausted
script (no further scripted response) also surfaces as `MaxRetryError`; the
claims always script enough responses. -/
def urlopenLoop (m : Method) : List Nat → Nat → Nat → UrlopenResult
  | [], _, attempts => .maxRetryError attempts
  | s :: _, 0, attempts =>
    if isRetry m s then .maxRetryError (attempts + 1)
    else .response s (attempts + 1)
  | s :: rest, t + 1, attempts =>
    if isRetry m s then urlopenLoop m rest t (attempts + 1)
    else .response s (attempts + 1)

/-- One call through the session configured by `_setup_retry_strategy` with
`retry_count` as the `total` budget (constructor default 3). -/
def clientRequest (retry_count : Nat) (m : Method) (statuses : List Nat) :
    UrlopenResult :=
  urlopenLoop m statuses retry_count 0

/-- Helper: a run that keeps answering a retryable status for a retryable
method performs exactly `total + 1` attempts and then raises. -/
theorem urlopenLoop_exhaust (m : Method) (s : Nat) (hs : isRetry m s = true) :
    ∀ (total attempts : Nat) (rest : List Nat),
      urlopenLoop m (List.replicate (total + 1) s ++ rest) total attempts =
        .maxRetryError (attempts + total + 1) := by
  intro total
  induction total with
  | zero =>
    intro attempts rest
    simp [urlopenLoop, hs]
  | succ t ih =>
    intro attempts rest
    rw [List.replicate_succ, List.cons_append]
    simp only [urlopenLoop, hs, if_true]
    rw [ih (attempts + 1) rest]
    congr 1
    omega

/-- Helper: a retryable method that receives `j` retryable statuses and then a
non-retryable one, with at least `j` retries of budget, gets that response
back after `j + 1` attempts. -/
theorem urlopenLoop_recover (m : Method) (s ok : Nat)
    (hs : isRetry m s = true) (hok : isRetry m ok = false) :
    ∀ (j extra attempts : Nat) (rest : List Nat),
      urlopenLoop m (List.replicate j s ++ ok :: rest) (j + extra) attempts =
        .response ok (attempts + j + 1) := by
  intro j
  induction j with
  | zero =>
    intro extra attempts rest
    cases extra <;> simp [urlopenLoop, hok]
  | succ j ih =>
    intro extra attempts rest
    rw [List.replicate_succ, List.cons_append]
    have hstep : j + 1 + extra = (j + extra) + 1 := by omega
    rw [hstep]
    simp only [urlopenLoop, hs, if_true]
    rw [ih extra (attempts + 1) rest]
    congr 1
    omega

/-- C1: for every call issued with a non-idempotent method (POST or PATCH),
the HTTP client performs exactly one network attempt, even when the response
status code is in the retryable set {429, 500, 502, 503, 504} (indeed for
every status code): the first scripted response is returned after exactly one
attempt, and no automatic retry ever duplicates the submission, for every
configured retry budget. -/
theorem C1_post_patch_single_attempt (retry_count s : Nat) (rest : List Nat) :
    clientRequest retry_count Method.POST (s :: rest) =
      UrlopenResult.response s 1 ∧
    clientRequest retry_count Method.PATCH (s :: rest) =
      UrlopenResult.response s 1 := by
  have hpost : isRetry Method.POST s = false := by
    simp [isRetry, isMethodRetryable, allowedMethods]
  have hpatch : isRetry Method.PATCH s = false := by
    simp [isRetry, isMethodRetryable, allowedMethods]
  refine ⟨?_, ?_⟩ <;> cases retry_count <;>
    simp [clientRequest, urlopenLoop, hpost, hpatch]

/-- C2 counterexample: a GET that receives 503 on every attempt with the
default retry budget 3 performs 4 attempts and then raises a retry-exhaustion
error (urllib3 `MaxRetryError`, surfaced by requests as `RetryError`); it
does not return the final 503 response to the caller, contrary to the claim. -/
theorem C2_counterexample_exhausted_503_raises :
    clientRequest 3 Method.GET [503, 503, 503, 503] =
      UrlopenResult.maxRetryError 4 ∧
    clientRequest 3 Method.GET [503, 503, 503, 503] ≠
      UrlopenResult.response 503 4 := by
  decide

/-- C2 (amended): for every idempotent method in the retry allowlist, a call
that keeps receiving status 503 is retried up to the configured bound: with
budget `retry_count` it performs exactly `retry_count + 1` attempts and then
raises a retry-exhaustion error (because the strategy keeps the urllib3
default `raise_on_status=True`), rather than returning the final 503
response; and if a 200 arrives on attempt `j + 1` with at least `j` retries
of budget remaining, that 200 response is returned to the caller. -/
theorem C2_amended_503_retried_to_bound_then_error (m : Method)
    (hm : isMethodRetryable m = true) (retry_count j extra : Nat)
    (rest rest2 : List Nat) :
    clientRequest retry_count m
        (List.replicate (retry_count + 1) 503 ++ rest) =
      UrlopenResult.maxRetryError (retry_count + 1) ∧
    clientRequest (j + extra) m (List.replicate j 503 ++ 200 :: rest2) =
      UrlopenResult.response 200 (j + 1) := by
  have hs : isRetry m 503 = true := by
    simp [isRetry, hm, statusForcelist]
  have hok : isRetry m 200 = false := by
    simp [isRetry, statusForcelist]
  constructor
  · have h := urlopenLoop_exhaust m 503 hs retry_count 0 rest
    simpa [clientRequest] using h
  · have h := urlopenLoop_recover m 503 200 hs hok j extra 0 rest2
    simpa [clientRequest] using h

/-- Witness for C2 (amended) at the concrete default configuration:
a GET with budget 3 and four scripted 503s raises after 4 attempts, and a GET
with budget 3 (= 2 + 1) that sees two 503s then a 200 returns the 200 on the
third attempt. -/
theorem C2_amended_witness :
    isMethodRetryable Method.GET = true ∧
    clientRequest 3 Method.GET (List.replicate 4 503 ++ []) =
      UrlopenResult.maxRetryError 4 ∧
    clientRequest (2 + 1) Method.GET (List.replicate 2 503 ++ 200 :: []) =
      UrlopenResult.response 200 3 := by
  refine ⟨by decide, ?_, ?_⟩
  · exact (C2_amended_503_retried_to_bound_then_error Method.GET (by decide)
      3 0 0 [] []).1
  · exact (C2_amended_503_retried_to_bound_then_error Method.GET (by decide)
      3 2 1 [] []).2

/-! ## Client state: headers, session lifecycle and request/response tracking

Embeds the stateful part of `BaseAPI` / `APIClient` (the two classes are
line-for-line identical here): construction, `_get_default_headers`,
`set_correlation_id`, `reset_session`, `_build_url` and `_make_request`.
Header dictionaries are modeled as functions from key to optional value;
`dict.update` is the right-biased merge of such functions. Logging calls are
pure I/O and are elided. -/

/-- A header dictionary: key to optional value. -/
abbrev Headers := String → Option String

/-- The empty header dictionary. -/
def Headers.empty : Headers := fun _ => none

/-- Write `h[k] = v` on a header dictionary. -/
def Headers.set (h : Headers) (k v : String) : Headers :=
  fun q => if q = k then some v else h q

/-- Right-biased merge `base.copy(); base.update(override)`: the override's entry wins where
present, otherwise the base's entry survives. -/
def Headers.merge (base override : Headers) : Headers :=
  fun q =>
    match override q with
    | some v => some v
    | none => base q

/-- Python `s.rstrip('/')`. -/
def rstripSlashes (s : String) : String :=
  String.mk ((s.data.reverse.dropWhile (fun c => c = '/')).reverse)

/-- Python `s.lstrip('/')`. -/
def lstripSlashes (s : String) : String :=
  String.mk (s.data.dropWhile (fun c => c = '/'))

/-- The Request Record tracked in `self.last_request` by `_make_request`:
method, built URL, and the merged headers passed to the dispatch. -/
structure RequestRecord where
  method : Method
  url : String
  headers : Headers

/-- The Response Record tracked in `self.last_response`: the slice of
`requests.Response` the claims observe. -/
structure ResponseRecord where
  status_code : Nat
  body : String
deriving DecidableEq, Repr

/-- Client state: the fields set by `BaseAPI.__init__` / `APIClient.__init__`
(base_url, auth_token, timeout, retry_count, the session's header dict, and
the three request/response tracking slots). -/
structure Client where
  base_url : String
  auth_token : String
  timeout : Nat
  retry_count : Nat
  sessionHeaders : Headers
  last_request : Option RequestRecord
  last_response : Option ResponseRecord
  last_response_time : Option ℚ

/-- Constructor `__init__`: strips the trailing slashes from the base URL, stores the
token, timeout and retry count, and initializes the three tracking slots to
`None`. A fresh `requests.Session` header set carries no `Authorization`
entry (only transport defaults such as `User-Agent`), and `__init__` never
touches it, so it is modeled as the empty map. -/
def mkClient (base_url auth_token : String) (timeout retry_count : Nat) :
    Client where
  base_url := rstripSlashes base_url
  auth_token := auth_token
  timeout := timeout
  retry_count := retry_count
  sessionHeaders := Headers.empty
  last_request := none
  last_response := none
  last_response_time := none

/-- Method `_get_default_headers`: rebuilt from the client's current `auth_token` on
every use. -/
def defaultHeaders (c : Client) : Headers :=
  (((Headers.empty.set "Content-Type" "application/json").set
      "Accept" "application/json").set
      "Authorization" ("Bearer " ++ c.auth_token)).set
      "User-Agent" "Banking-API-BDD-Tests/1.0"

/-- Method `set_correlation_id`: `self.session.headers.update({'X-Correlation-Id':
correlation_id})`. -/
def Client.set_correlation_id (c : Client) (correlation_id : String) :
    Client :=
  { c with
    sessionHeaders := c.sessionHeaders.set "X-Correlation-Id" correlation_id }

/-- Method `reset_session`: `self.session.headers.clear()` then
`self.session.headers.update(self._get_default_headers())`. -/
def Client.reset_session (c : Client) : Client :=
  { c with sessionHeaders := Headers.merge Headers.empty (defaultHeaders c) }

/-- Method `_build_url`: `urljoin(self.base_url + '/', endpoint.lstrip('/'))`, which
for the relative endpoint paths this framework passes is base, slash,
endpoint without its leading slashes. -/
def buildUrl (c : Client) (endpoint : String) : String :=
  c.base_url ++ "/" ++ lstripSlashes endpoint

/-- The headers `_make_request` passes to the dispatch: the default set with
caller-supplied headers merged over it (`headers.update(kwargs['headers'])`). -/
def requestHeaders (c : Client) (caller : Headers) : Headers :=
  Headers.merge (defaultHeaders c) caller

/-- The headers that actually go on the wire: `requests` merges the
per-request headers over the session headers, with the per-request side
winning. -/
def attachedHeaders (c : Client) (caller : Headers) : Headers :=
  Headers.merge c.sessionHeaders (requestHeaders c caller)

/-- Outcome of the underlying `self.session.request(...)` dispatch: a
response after some elapsed time, or a raised
`requests.exceptions.RequestException`. -/
inductive NetOutcome where
  | ok (resp : ResponseRecord) (elapsed : ℚ)
  | exn (elapsed : ℚ)

/-- What `_make_request` hands back to its caller: the response, or the
re-raised request exception. -/
inductive CallResult where
  | returned (resp : ResponseRecord)
  | raised
deriving DecidableEq, Repr

/-- Method `_make_request` (base_api.py lines 106-157): builds the URL, merges the
headers, stores `self.last_request` before dispatch, then on a response
stores `self.last_response` / `self.last_response_time` and returns it, and
on a `RequestException` logs and re-raises without touching the response
slots. -/
def Client.make_request (c : Client) (m : Method) (endpoint : String)
    (caller : Headers) (net : NetOutcome) : Client × CallResult :=
  let url := buildUrl c endpoint
  let hdrs := requestHeaders c caller
  let c1 := { c with last_request := some { method := m, url := url, headers := hdrs } }
  match net with
  | .ok resp t =>
    ({ c1 with last_response := some resp, last_response_time := some t },
     .returned resp)
  | .exn _ => (c1, .raised)

/-- C9 counterexample: on a client built with token `tok123` (with a
correlation id in its session headers, so the reset genuinely rewrites the
session header set), the `Authorization` header attached to calls after
`reset_session` is identical to the one attached before — `Bearer tok123`
both times, because `_make_request` rebuilds it from the unchanged
`auth_token` on every call. The claim that a reset changes the Authorization
header of subsequent calls is therefore false at this input. -/
theorem C9_counterexample_reset_keeps_authorization :
    attachedHeaders
        (Client.reset_session
          ((mkClient "https://api.example.test" "tok123" 30 3).set_correlation_id
            "corr-1"))
        Headers.empty "Authorization" =
      attachedHeaders
        ((mkClient "https://api.example.test" "tok123" 30 3).set_correlation_id
          "corr-1")
        Headers.empty "Authorization" ∧
    attachedHeaders
        ((mkClient "https://api.example.test" "tok123" 30 3).set_correlation_id
          "corr-1")
        Headers.empty "Authorization" = some "Bearer tok123" := by
  constructor <;> rfl

/-- C9 (amended): `reset_session` replaces the session header set with the
default header set (rebuilt from the client's stored, unchanged auth token)
and modifies no other field of the client: `retry_count`, `base_url`,
`timeout`, `auth_token` and the three tracking slots are untouched.
Consequently the `Authorization` header attached to subsequent calls is the
same before and after a reset, for every caller-supplied header set. -/
theorem C9_amended_reset_frame (c : Client) (caller : Headers) :
    (Client.reset_session c).base_url = c.base_url ∧
    (Client.reset_session c).auth_token = c.auth_token ∧
    (Client.reset_session c).timeout = c.timeout ∧
    (Client.reset_session c).retry_count = c.retry_count ∧
    (Client.reset_session c).last_request = c.last_request ∧
    (Client.reset_session c).last_response = c.last_response ∧
    (Client.reset_session c).last_response_time = c.last_response_time ∧
    (∀ k, (Client.reset_session c).sessionHeaders k = defaultHeaders c k) ∧
    attachedHeaders (Client.reset_session c) caller "Authorization" =
      attachedHeaders c caller "Authorization" := by
  refine ⟨rfl, rfl, rfl, rfl, rfl, rfl, rfl, ?_, ?_⟩
  · intro k
    show Headers.merge Headers.empty (defaultHeaders c) k = defaultHeaders c k
    unfold Headers.merge Headers.empty
    cases defaultHeaders c k <;> rfl
  · unfold attachedHeaders requestHeaders Headers.merge defaultHeaders
      Headers.set Headers.empty Client.reset_session
    cases h : caller "Authorization" <;> simp [h]

/-- C10: when the underlying dispatch raises (a network-level failure), the
client has already stored the failed call's Request Record in `last_request`,
while `last_response` and `last_response_time` keep whatever the previous
call left there (initially `None` from `__init__`), so the stored request and
response can describe two different calls; the failed call produces no
fabricated Response Record — the exception is re-raised. -/
theorem C10_network_failure_tracking (c : Client) (m : Method)
    (endpoint : String) (caller : Headers) (t : ℚ)
    (b tok : String) (tmo rc : Nat) :
    (Client.make_request c m endpoint caller (NetOutcome.exn t)).1.last_request =
      some { method := m, url := buildUrl c endpoint,
             headers := requestHeaders c caller } ∧
    (Client.make_request c m endpoint caller (NetOutcome.exn t)).1.last_response =
      c.last_response ∧
    (Client.make_request c m endpoint caller
        (NetOutcome.exn t)).1.last_response_time = c.last_response_time ∧
    (Client.make_request c m endpoint caller (NetOutcome.exn t)).2 =
      CallResult.raised ∧
    (mkClient b tok tmo rc).last_request = none ∧
    (mkClient b tok tmo rc).last_response = none ∧
    (mkClient b tok tmo rc).last_response_time = none := by
  exact ⟨rfl, rfl, rfl, rfl, rfl, rfl, rfl⟩

/-! ## Metrics aggregation

`environment.py`: `before_all` (lines 324-333) creates the run-scoped
`test_metrics`, `before_scenario` (lines 355-364) creates the
scenario-scoped `scenario_metrics` and bumps the scenario total; the HTTP
steps (`http_steps.py` lines 42-48 and the analogous blocks of the other
methods) add one call and its elapsed time to both. Averages are derived at
three places: `after_scenario` (lines 393-396), `after_all` (lines 443-446)
and the assertion step `step_assert_average_response_time`
(`performance_steps.py` lines 61-92). -/

/-- The scenario-scoped Metrics Snapshot (`context.scenario_metrics`). -/
structure Metrics where
  api_calls : Nat
  total_response_time : ℚ
  errors : List String
deriving DecidableEq, Repr

/-- The run-scoped metrics (`context.test_metrics`; the wall-clock
`start_time` entry is elided). -/
structure TestMetrics where
  total_scenarios : Nat
  passed_scenarios : Nat
  failed_scenarios : Nat
  skipped_scenarios : Nat
  api_calls : Nat
  total_response_time : ℚ
deriving DecidableEq, Repr

/-- Hook `before_all` lines 325-333: all counters start at zero. -/
def initTestMetrics : TestMetrics :=
  { total_scenarios := 0, passed_scenarios := 0, failed_scenarios := 0,
    skipped_scenarios := 0, api_calls := 0, total_response_time := 0 }

/-- Hook `before_scenario` lines 356-361: a fresh scenario snapshot. -/
def initScenarioMetrics : Metrics :=
  { api_calls := 0, total_response_time := 0, errors := [] }

/-- The per-scenario average as `after_scenario` derives it (lines 393-396):
only computed (and logged) when the accumulated time is positive, with
divisor `max(api_calls, 1)`; `none` means the guard skipped the computation
entirely. -/
def afterScenarioAvg (m : Metrics) : Option ℚ :=
  if 0 < m.total_response_time then
    some (m.total_response_time / (max m.api_calls 1 : ℕ))
  else none

/-- The run-level average as `after_all` derives it (lines 443-446): same
guard and divisor over the run-scoped metrics. -/
def afterAllAvg (tm : TestMetrics) : Option ℚ :=
  if 0 < tm.total_response_time then
    some (tm.total_response_time / (max tm.api_calls 1 : ℕ))
  else none

/-- The average the assertion step `step_assert_average_response_time`
derives (performance_steps.py lines 71-78): the step returns early — without
computing anything — when no calls were recorded, otherwise divides total by
count. -/
def stepAverageResponseTime (m : Metrics) : Option ℚ :=
  if m.api_calls = 0 then none
  else some (m.total_response_time / (m.api_calls : ℕ))

/-- C4 counterexample: on the empty Metrics Snapshot (count 0, total 0) none
of the three average-derivation sites yields 0 — each guard skips the
computation, so no average value is produced at all. -/
theorem C4_counterexample_empty_average_is_skipped :
    afterScenarioAvg initScenarioMetrics = none ∧
    stepAverageResponseTime initScenarioMetrics = none ∧
    afterAllAvg initTestMetrics = none ∧
    afterScenarioAvg initScenarioMetrics ≠ some 0 := by
  refine ⟨?_, ?_, ?_, ?_⟩ <;>
    simp [afterScenarioAvg, stepAverageResponseTime, afterAllAvg,
      initScenarioMetrics, initTestMetrics]

/-- C4 (amended): on an empty Metrics Snapshot every average-derivation site
(per-scenario, run-level, and the assertion step) skips the computation and
produces no value, rather than 0; and no site can ever divide by zero, since
the hook sites divide by `max(api_calls, 1) ≥ 1` and the assertion step only
divides under its `api_calls ≠ 0` guard — so no division error, NaN or
infinity can arise. -/
theorem C4_amended_empty_average_skipped_no_div_error (m : Metrics)
    (tm : TestMetrics) (hm : m.api_calls = 0 ∧ m.total_response_time = 0)
    (htm : tm.api_calls = 0 ∧ tm.total_response_time = 0) :
    afterScenarioAvg m = none ∧
    stepAverageResponseTime m = none ∧
    afterAllAvg tm = none ∧
    (∀ m2 : Metrics, (0 : ℚ) < (max m2.api_calls 1 : ℕ)) ∧
    (∀ tm2 : TestMetrics, (0 : ℚ) < (max tm2.api_calls 1 : ℕ)) ∧
    (∀ (m2 : Metrics) (v : ℚ),
      stepAverageResponseTime m2 = some v → m2.api_calls ≠ 0) := by
  obtain ⟨hc, ht⟩ := hm
  obtain ⟨htc, htt⟩ := htm
  refine ⟨?_, ?_, ?_, ?_, ?_, ?_⟩
  · simp [afterScenarioAvg, ht]
  · simp [stepAverageResponseTime, hc]
  · simp [afterAllAvg, htt]
  · intro m2
    have : 1 ≤ max m2.api_calls 1 := le_max_right _ _
    exact_mod_cast lt_of_lt_of_le one_pos this
  · intro tm2
    have : 1 ≤ max tm2.api_calls 1 := le_max_right _ _
    exact_mod_cast lt_of_lt_of_le one_pos this
  · intro m2 v hv hzero
    simp [stepAverageResponseTime, hzero] at hv

/-- Witness for C4 (amended) at the freshly initialized snapshots. -/
theorem C4_amended_witness :
    afterScenarioAvg initScenarioMetrics = none ∧
    stepAverageResponseTime initScenarioMetrics = none ∧
    afterAllAvg initTestMetrics = none := by
  have h := C4_amended_empty_average_skipped_no_div_error initScenarioMetrics
    initTestMetrics ⟨rfl, rfl⟩ ⟨rfl, rfl⟩
  exact ⟨h.1, h.2.1, h.2.2.1⟩

/-! ## Failure reporting

`environment.py`: `capture_failure_details` (lines 52-178) builds the
failure record from the scenario context and writes it; `after_scenario`
(lines 367-415) invokes it exactly when the scenario status is `failed`. -/

/-- Behave scenario terminal statuses as `after_scenario` distinguishes them:
`passed` and `failed` are matched explicitly, everything else falls into the
skipped bucket. -/
inductive ScenarioStatus where
  | passed | failed | skipped | untested
deriving DecidableEq, Repr

/-- String `scenario.status.name` as recorded in the failure details. -/
def ScenarioStatus.name : ScenarioStatus → String
  | .passed => "passed"
  | .failed => "failed"
  | .skipped => "skipped"
  | .untested => "untested"

/-- Exception details gathered from `scenario.exception` (lines 75-80). -/
structure ExceptionDetail where
  kind : String
  message : String
  trace : List String
deriving DecidableEq, Repr

/-- The slice of a `requests.Response` the failure capture reads: status,
headers and URL are plain attributes; reading `.text` is the decode that can
raise, so it is an `Except` (`.error` carries the raised exception's text). -/
structure RawResponse where
  status_code : Nat
  headers : List (String × String)
  url : String
  text : Except String String
deriving Repr

/-- The `api_response` entry built on a successful gather (lines 89-94). -/
structure ApiResponseDetail where
  status_code : Nat
  headers : List (String × String)
  url : String
  body : String
deriving DecidableEq, Repr

/-- Body truncation of line 93: `text[:2000] + "..."` when longer than 2000
characters. -/
def truncateBody (s : String) : String :=
  if 2000 < s.length then s.take 2000 ++ "..." else s

/-- The scenario context fields `capture_failure_details` reads. Optional
attributes guarded by `hasattr`-and-truthiness checks in the source are
`Option`s (with `some` meaning present and truthy). -/
structure ScenarioContext where
  scenario_name : String
  feature_name : String
  location : String
  tags : List String
  status : ScenarioStatus
  exception : Option ExceptionDetail
  last_error : Option String
  response : Option RawResponse
  scenario_metrics : Option Metrics
  base_url : Option String

/-- The structured failure record `capture_failure_details` assembles
(`failure_details` dict, lines 64-107). -/
structure FailureDetails where
  timestamp : String
  scenario : String
  feature : String
  location : String
  duration : String
  tags : List String
  status : String
  exception : Option ExceptionDetail
  last_error : Option String
  api_response : Option ApiResponseDetail
  api_response_error : Option String
  metrics : Option Metrics
  env_base_url : String
deriving DecidableEq, Repr

/-- Function `capture_failure_details` (lines 52-107): builds the failure record.
The `api_response` block (lines 87-96) runs only when `context.response` is
present and truthy (a `requests.Response` is truthy exactly when its status
is below 400); inside it, a raised exception while reading the body degrades
to the single `api_response_error` marker field instead of propagating, and
every other field is still gathered. The environment block uses
`getattr(context, 'base_url', 'Not set')`. The function is total: it never
raises. -/
def capture_failure_details (ctx : ScenarioContext)
    (timestamp duration : String) : FailureDetails :=
  let apiPair : Option ApiResponseDetail × Option String :=
    match ctx.response with
    | none => (none, none)
    | some r =>
      if r.status_code < 400 then
        match r.text with
        | .ok t =>
          (some { status_code := r.status_code, headers := r.headers,
                  url := r.url, body := truncateBody t }, none)
        | .error e => (none, some ("Could not capture response: " ++ e))
      else (none, none)
  { timestamp := timestamp
    scenario := ctx.scenario_name
    feature := ctx.feature_name
    location := ctx.location
    duration := duration
    tags := ctx.tags
    status := ctx.status.name
    exception := ctx.exception
    last_error := ctx.last_error
    api_response := apiPair.1
    api_response_error := apiPair.2
    metrics := ctx.scenario_metrics
    env_base_url := ctx.base_url.getD "Not set" }

/-- The report write (lines 109-178): on success the record's file is
appended to `context.failure_files`; a write error is caught, logged and
swallowed, leaving the list unchanged — it never propagates. -/
def writeFailureRecord (files : List FailureDetails) (d : FailureDetails)
    (writeOk : Bool) : List FailureDetails :=
  if writeOk then files ++ [d] else files

/-- Run-level reporter state threaded through the `after_scenario` hook. -/
structure HookState where
  test : TestMetrics
  failure_records : List FailureDetails

/-- Hook `after_scenario` (lines 367-415), reporter part: `passed` bumps the
passed bucket, `failed` bumps the failed bucket and captures the failure
details immediately, anything else bumps the skipped bucket; only the failed
branch creates a record. -/
def after_scenario (s : HookState) (ctx : ScenarioContext)
    (timestamp duration : String) (writeOk : Bool) : HookState :=
  if ctx.status = .passed then
    { s with test := { s.test with
        passed_scenarios := s.test.passed_scenarios + 1 } }
  else if ctx.status = .failed then
    { test := { s.test with
        failed_scenarios := s.test.failed_scenarios + 1 },
      failure_records := writeFailureRecord s.failure_records
        (capture_failure_details ctx timestamp duration) writeOk }
  else
    { s with test := { s.test with
        skipped_scenarios := s.test.skipped_scenarios + 1 } }

/-- C5: with the report write succeeding, a scenario ending `failed` appends
exactly one Failure Record (the one captured from its context, immediately),
and a scenario ending `passed` or `skipped` (or any other non-failed status)
appends none. -/
theorem C5_one_failure_record_per_failed_scenario (s : HookState)
    (ctx : ScenarioContext) (timestamp duration : String) :
    (after_scenario s ctx timestamp duration true).failure_records =
      (if ctx.status = .failed then
        s.failure_records ++ [capture_failure_details ctx timestamp duration]
      else s.failure_records) ∧
    (after_scenario s ctx timestamp duration true).failure_records.length =
      s.failure_records.length +
        (if ctx.status = .failed then 1 else 0) := by
  cases h : ctx.status <;>
    simp [after_scenario, writeFailureRecord, h]

/-- C6: when reading the last response body raises during failure capture,
the record degrades exactly that one entry — `api_response` is absent and
`api_response_error` carries the explicit "Could not capture response"
marker — while every other field is still captured from the context, and a
failed write leaves the record list unchanged instead of propagating. -/
theorem C6_capture_never_propagates (ctx : ScenarioContext)
    (timestamp duration : String) (r : RawResponse) (e : String)
    (hr : ctx.response = some r) (hok : r.status_code < 400)
    (htext : r.text = Except.error e) :
    (capture_failure_details ctx timestamp duration).api_response = none ∧
    (capture_failure_details ctx timestamp duration).api_response_error =
      some ("Could not capture response: " ++ e) ∧
    (capture_failure_details ctx timestamp duration).scenario =
      ctx.scenario_name ∧
    (capture_failure_details ctx timestamp duration).feature =
      ctx.feature_name ∧
    (capture_failure_details ctx timestamp duration).location = ctx.location ∧
    (capture_failure_details ctx timestamp duration).tags = ctx.tags ∧
    (capture_failure_details ctx timestamp duration).status =
      ctx.status.name ∧
    (capture_failure_details ctx timestamp duration).exception =
      ctx.exception ∧
    (capture_failure_details ctx timestamp duration).last_error =
      ctx.last_error ∧
    (capture_failure_details ctx timestamp duration).metrics =
      ctx.scenario_metrics ∧
    (capture_failure_details ctx timestamp duration).env_base_url =
      ctx.base_url.getD "Not set" ∧
    (∀ files : List FailureDetails,
      writeFailureRecord files (capture_failure_details ctx timestamp duration)
        false = files) := by
  refine ⟨?_, ?_, rfl, rfl, rfl, rfl, rfl, rfl, rfl, rfl, rfl, fun _ => rfl⟩ <;>
    simp [capture_failure_details, hr, hok, htext]

/-- Witness for C6 at a concrete failed scenario whose 200 response has an
unreadable body. -/
theorem C6_witness :
    (capture_failure_details
        { scenario_name := "create account", feature_name := "accounts",
          location := "features/accounts.feature:12", tags := ["smoke"],
          status := ScenarioStatus.failed, exception := none,
          last_error := none,
          response := some { status_code := 200, headers := [], url := "u",
                             text := Except.error "boom" },
          scenario_metrics := some initScenarioMetrics,
          base_url := some "https://api.example.test" }
        "2024-01-01T00:00:00" "0:00:01").api_response_error =
      some "Could not capture response: boom" := by
  have h := C6_capture_never_propagates
    { scenario_name := "create account", feature_name := "accounts",
      location := "features/accounts.feature:12", tags := ["smoke"],
      status := ScenarioStatus.failed, exception := none, last_error := none,
      response := some { status_code := 200, headers := [], url := "u",
                         text := Except.error "boom" },
      scenario_metrics := some initScenarioMetrics,
      base_url := some "https://api.example.test" }
    "2024-01-01T00:00:00" "0:00:01"
    { status_code := 200, headers := [], url := "u",
      text := Except.error "boom" } "boom" rfl (by decide) rfl
  exact h.2.1

/-! ## Run/scenario metrics lifecycle

A trace semantics for the hooks and HTTP steps that touch the two Metrics
Snapshots: `before_all` initializes the run-scoped metrics,
`before_scenario` (re)creates the scenario-scoped snapshot, every HTTP step
adds one call and its elapsed time to both (`http_steps.py` lines 42-48),
and `after_scenario` updates the outcome buckets and deletes the
scenario-scoped snapshot (lines 377-384 and 412-413). The run-scoped
counters are never reset. -/

/-- The events that touch the metrics during a run. -/
inductive RunEvent where
  | startScenario
  | apiCall (elapsed : ℚ)
  | endScenario (st : ScenarioStatus)

/-- Run-scoped metrics plus the scenario-scoped snapshot, which exists only
between `before_scenario` and `after_scenario` (`delattr` removes it). -/
structure RunState where
  test : TestMetrics
  scenario : Option Metrics

/-- State right after `before_all`: zeroed run metrics, no scenario
snapshot yet. -/
def initRunState : RunState :=
  { test := initTestMetrics, scenario := none }

/-- The metrics update every HTTP step performs (`http_steps.py` lines
42-48): the run-scoped counters always advance; the scenario-scoped snapshot
advances when it exists (the `hasattr` guard). -/
def recordApiCall (s : RunState) (t : ℚ) : RunState :=
  { test := { s.test with
      api_calls := s.test.api_calls + 1,
      total_response_time := s.test.total_response_time + t },
    scenario := s.scenario.map fun m =>
      { m with api_calls := m.api_calls + 1,
               total_response_time := m.total_response_time + t } }

/-- One event of the run. `startScenario` is `before_scenario` (fresh zeroed
scenario snapshot, scenario total bumped); `endScenario` is the metrics part
of `after_scenario` (outcome bucket bumped, scenario snapshot deleted). -/
def runStep (s : RunState) : RunEvent → RunState
  | .startScenario =>
    { test := { s.test with
        total_scenarios := s.test.total_scenarios + 1 },
      scenario := some initScenarioMetrics }
  | .apiCall t => recordApiCall s t
  | .endScenario st =>
    { test :=
        if st = .passed then
          { s.test with passed_scenarios := s.test.passed_scenarios + 1 }
        else if st = .failed then
          { s.test with failed_scenarios := s.test.failed_scenarios + 1 }
        else
          { s.test with skipped_scenarios := s.test.skipped_scenarios + 1 },
      scenario := none }

/-- The state after a sequence of events starting from `before_all`. -/
def runEvents (evs : List RunEvent) : RunState :=
  evs.foldl runStep initRunState

/-- The scenario-scoped call count (0 when no scenario is active). -/
def scenarioCalls (s : RunState) : Nat :=
  (s.scenario.map Metrics.api_calls).getD 0

/-- Each event preserves `scenario calls ≤ run calls`. -/
theorem runStep_preserves_calls_le (s : RunState) (e : RunEvent)
    (h : scenarioCalls s ≤ s.test.api_calls) :
    scenarioCalls (runStep s e) ≤ (runStep s e).test.api_calls := by
  cases e with
  | startScenario =>
    simp [runStep, scenarioCalls, initScenarioMetrics]
  | apiCall t =>
    cases hs : s.scenario with
    | none =>
      simp [runStep, recordApiCall, scenarioCalls, hs]
    | some m =>
      simp [runStep, recordApiCall, scenarioCalls, hs] at h ⊢
      omega
  | endScenario st =>
    cases st <;> simp [runStep, scenarioCalls]

/-- C7: after every event sequence from `before_all`, the scenario-scoped
call count never exceeds the run-scoped call count; moreover a scenario
start zeroes only the scenario-scoped snapshot (run calls untouched), a
scenario end never touches the run call counter, and every HTTP call
advances the run counter by one and the scenario counter by at most one —
the run-scoped counters are never reset. -/
theorem C7_scenario_calls_le_run_calls (evs : List RunEvent) :
    scenarioCalls (runEvents evs) ≤ (runEvents evs).test.api_calls ∧
    (∀ s : RunState,
      (runStep s RunEvent.startScenario).test.api_calls = s.test.api_calls ∧
      scenarioCalls (runStep s RunEvent.startScenario) = 0) ∧
    (∀ (s : RunState) (st : ScenarioStatus),
      (runStep s (RunEvent.endScenario st)).test.api_calls =
        s.test.api_calls) ∧
    (∀ (s : RunState) (t : ℚ),
      (runStep s (RunEvent.apiCall t)).test.api_calls =
        s.test.api_calls + 1 ∧
      scenarioCalls (runStep s (RunEvent.apiCall t)) ≤ scenarioCalls s + 1) := by
  refine ⟨?_, ?_, ?_, ?_⟩
  · have main : ∀ (l : List RunEvent) (s : RunState),
        scenarioCalls s ≤ s.test.api_calls →
        scenarioCalls (l.foldl runStep s) ≤ (l.foldl runStep s).test.api_calls := by
      intro l
      induction l with
      | nil => intro s h; simpa using h
      | cons e rest ih =>
        intro s h
        exact ih (runStep s e) (runStep_preserves_calls_le s e h)
    exact main evs initRunState (by simp [initRunState, scenarioCalls])
  · intro s
    exact ⟨rfl, by simp [runStep, scenarioCalls, initScenarioMetrics]⟩
  · intro s st
    cases st <;> simp [runStep]
  · intro s t
    refine ⟨rfl, ?_⟩
    cases hs : s.scenario <;>
      simp [runStep, recordApiCall, scenarioCalls, hs]

/-! ## Concurrent load runner

`performance_steps.py`: `step_concurrent_requests_to_endpoint` (lines
235-299) fans `count` GETs over `ThreadPoolExecutor(max_workers=min(5,
count))`, collects one result dict per request (each worker catches its own
exception and returns a failure result), and derives the aggregate dict.
`step_create_multiple_resources` (lines 132-232) does the same for POSTs of
the performance dataset, but its workers re-raise exceptions (so
`future.result()` propagates them) and its aggregate counts successes as
2xx and failures as status ≥ 400. The per-outcome inputs script what each
request would observe; result order is modeled as submission order (the
source collects in completion order, which only permutes the list and leaves
every aggregate below unchanged). -/

/-- What one concurrent GET observes: a response, or a raised exception
caught inside the worker. -/
inductive PerRequestOutcome where
  | ok (status : Nat) (elapsed : ℚ)
  | exn (message : String) (elapsed : ℚ)

/-- One entry of the concurrent runner's result list (lines 258-273). -/
structure LoadResult where
  request_id : Nat
  status_code : Nat
  response_time : ℚ
  success : Bool
  error : Option String
deriving DecidableEq, Repr

/-- Worker `make_request` inside `step_concurrent_requests_to_endpoint`: a response
yields `success = 200 <= status < 300`; a caught exception yields status 0,
`success = False` and the error string. -/
def makeConcurrentRequest (request_id : Nat) :
    PerRequestOutcome → LoadResult
  | .ok s t =>
    { request_id := request_id, status_code := s, response_time := t,
      success := decide (200 ≤ s) && decide (s < 300), error := none }
  | .exn msg t =>
    { request_id := request_id, status_code := 0, response_time := t,
      success := false, error := some msg }

/-- The ways the batch step itself can raise. -/
inductive RunnerError where
  /-- Constructing `ThreadPoolExecutor(max_workers=0)` raises
  `ValueError: max_workers must be greater than 0`. -/
  | maxWorkersZero
  /-- Computing `sum(...) / len(results)` with an empty result list raises
  `ZeroDivisionError`. -/
  | averageDivByZero
deriving DecidableEq, Repr

/-- The `context.concurrent_results` aggregate (lines 288-295). -/
structure ConcurrentResults where
  results : List LoadResult
  total_time : ℚ
  requests_per_second : ℚ
  success_count : Nat
  failure_count : Nat
  average_response_time : ℚ
deriving DecidableEq, Repr

/-- The `context.concurrent_results` aggregate dict (lines 288-295):
throughput guarded against a zero wall time, success/failure counted by the
boolean success flag, and the average dividing by the result count. -/
def concurrentAggregate (results : List LoadResult) (total_time : ℚ) :
    ConcurrentResults where
  results := results
  total_time := total_time
  requests_per_second :=
    if 0 < total_time then (results.length : ℚ) / total_time else 0
  success_count := results.countP (fun r => r.success)
  failure_count := results.countP (fun r => !r.success)
  average_response_time :=
    (results.map LoadResult.response_time).sum / (results.length : ℚ)

/-- Step `step_concurrent_requests_to_endpoint` (lines 235-299): clamps the
worker count to `min(5, count)` (a zero worker count makes the executor
constructor raise `ValueError` before anything runs), collects the `count`
per-request results, and builds the aggregate — whose average divides by the
result count and hence raises `ZeroDivisionError` when there are none. -/
def stepConcurrentRequests (count : Nat)
    (outcomes : Nat → PerRequestOutcome) (total_time : ℚ) :
    Except RunnerError ConcurrentResults :=
  let max_workers := min 5 count
  if max_workers = 0 then .error .maxWorkersZero
  else
    let results := (List.range count).map fun i =>
      makeConcurrentRequest (i + 1) (outcomes i)
    if results.length = 0 then .error .averageDivByZero
    else .ok (concurrentAggregate results total_time)

/-- C3 counterexample: a batch of `n = 0` concurrent requests raises
(`min(5, 0) = 0` workers makes the executor constructor raise `ValueError`
before anything runs); it does not return the empty Load-Test Result with
zero throughput that the claim describes. -/
theorem C3_counterexample_zero_requests_raises :
    stepConcurrentRequests 0 (fun _ => PerRequestOutcome.ok 200 1) 1 =
      Except.error RunnerError.maxWorkersZero ∧
    stepConcurrentRequests 0 (fun _ => PerRequestOutcome.ok 200 1) 1 ≠
      Except.ok
        { results := [], total_time := 1, requests_per_second := 0,
          success_count := 0, failure_count := 0,
          average_response_time := 0 } := by
  constructor
  · rfl
  · intro h
    exact Except.noConfusion h

/-- C3 (amended): running the concurrent batch step with `n = 0` never
returns: for every scripted set of outcomes and wall time it raises the
executor's `ValueError` (zero workers) — and even absent that, the
`average_response_time` derivation would divide by the empty result count —
so no empty Load-Test Result is produced. -/
theorem C3_amended_zero_requests_always_error
    (outcomes : Nat → PerRequestOutcome) (total_time : ℚ) :
    stepConcurrentRequests 0 outcomes total_time =
      Except.error RunnerError.maxWorkersZero := by
  rfl

/-- One entry of the performance-dataset runner's result list
(`create_resource`, lines 188-193). -/
structure PerfResult where
  status_code : Nat
  response_time : ℚ
  correlation_id : String
deriving DecidableEq, Repr

/-- The `context.performance_results` aggregate (lines 209-215). -/
structure PerformanceResults where
  results : List PerfResult
  total_time : ℚ
  requests_per_second : ℚ
  success_count : Nat
  failure_count : Nat
deriving DecidableEq, Repr

/-- The aggregate dict built at lines 209-215: throughput guarded against a
zero wall time, success counted as 2xx, failure counted as status ≥ 400
(statuses in between land in neither bucket). -/
def perfAggregate (results : List PerfResult) (total_time : ℚ) :
    PerformanceResults where
  results := results
  total_time := total_time
  requests_per_second :=
    if 0 < total_time then (results.length : ℚ) / total_time else 0
  success_count := results.countP fun r =>
    decide (200 ≤ r.status_code) && decide (r.status_code < 300)
  failure_count := results.countP fun r => decide (400 ≤ r.status_code)

/-- The ways `step_create_multiple_resources` itself raises. -/
inductive PerfStepError where
  /-- Constructing `ThreadPoolExecutor(max_workers=0)` raises `ValueError` when the
  dataset is empty. -/
  | maxWorkersZero
  /-- Worker `create_resource` re-raises request exceptions, which
  `future.result()` propagates, aborting the whole batch. -/
  | requestRaised
deriving DecidableEq, Repr

/-- Step `step_create_multiple_resources` (lines 132-232): workers are
`min(5, len(performance_data))`, the batch is the first 10 dataset items,
each scripted outcome is `none` when that request raised (aborting the
step), and the aggregate of lines 209-215 is derived from the collected
results. -/
def step_create_multiple_resources (datasetSize : Nat)
    (outcomes : Nat → Option PerfResult) (total_time : ℚ) :
    Except PerfStepError PerformanceResults :=
  let max_workers := min 5 datasetSize
  if max_workers = 0 then .error .maxWorkersZero
  else
    let n := min datasetSize 10
    match (List.range n).mapM outcomes with
    | none => .error .requestRaised
    | some results => .ok (perfAggregate results total_time)

/-- Counting a predicate and its negation over a list covers it exactly. -/
theorem countP_add_countP_not {α : Type} (l : List α) (p : α → Bool) :
    l.countP p + l.countP (fun a => !p a) = l.length := by
  induction l with
  | nil => simp
  | cons a l ih =>
    cases h : p a <;> simp [List.countP_cons, h] <;> omega

/-- Two mutually exclusive predicates that jointly cover every element of a
list count it exactly. -/
theorem countP_add_countP_cover {α : Type} (l : List α) (p q : α → Bool)
    (h : ∀ x ∈ l, (p x = true ∧ q x = false) ∨ (p x = false ∧ q x = true)) :
    l.countP p + l.countP q = l.length := by
  induction l with
  | nil => simp
  | cons a l ih =>
    have ha := h a (by simp)
    have hrest : ∀ x ∈ l, (p x = true ∧ q x = false) ∨
        (p x = false ∧ q x = true) := fun x hx => h x (by simp [hx])
    have ihr := ih hrest
    rcases ha with ⟨hp, hq⟩ | ⟨hp, hq⟩ <;>
      simp [List.countP_cons, hp, hq] <;> omega

/-- C8 counterexample: a performance-dataset batch of 10 where one POST
comes back `303 See Other` (and the rest `201`) yields exactly 10 results,
but its derived aggregate has `success_count + failure_count = 9 ≠ 10` —
successes are counted as 2xx and failures as status ≥ 400, so a 3xx lands
in neither bucket, refuting the claim that every batch satisfies
`success_count + failure_count = n`. -/
theorem C8_counterexample_3xx_breaks_partition :
    (step_create_multiple_resources 10
        (fun i => some
          { status_code := if i = 9 then 303 else 201,
            response_time := 1, correlation_id := "corr" })
        2).toOption.map
      (fun r => (r.results.length, r.success_count + r.failure_count)) =
      some (10, 9) := by
  decide

/-- C8 (amended): the concurrent-endpoint runner with `n = 10` (workers
clamped to `min(5, 10) = 5`) returns exactly 10 per-request results with
`success_count + failure_count = 10` (its success flag partitions the
batch) and `throughput = 10 / wall time`; in the performance-dataset
runner, the same identity `success_count + failure_count = |results|` holds
only for batches whose statuses all land in a bucket (2xx or ≥ 400) — a
3xx response is counted in neither. -/
theorem C8_amended_batch_aggregates (outcomes : Nat → PerRequestOutcome)
    (t : ℚ) (ht : 0 < t) (results : List PerfResult) (pt : ℚ)
    (hcover : ∀ x ∈ results,
      (200 ≤ x.status_code ∧ x.status_code < 300) ∨ 400 ≤ x.status_code) :
    (∃ r : ConcurrentResults,
      stepConcurrentRequests 10 outcomes t = Except.ok r ∧
      r.results.length = 10 ∧
      r.success_count + r.failure_count = 10 ∧
      r.requests_per_second = 10 / t) ∧
    (perfAggregate results pt).success_count +
        (perfAggregate results pt).failure_count =
      (perfAggregate results pt).results.length := by
  constructor
  · have hstep : stepConcurrentRequests 10 outcomes t =
        Except.ok (concurrentAggregate
          ((List.range 10).map fun i => makeConcurrentRequest (i + 1)
            (outcomes i)) t) := by
      simp [stepConcurrentRequests]
    refine ⟨_, hstep, ?_, ?_, ?_⟩
    · simp [concurrentAggregate]
    · have hp := countP_add_countP_not
        ((List.range 10).map fun i => makeConcurrentRequest (i + 1)
          (outcomes i)) (fun r => r.success)
      simp only [concurrentAggregate]
      simpa using hp
    · simp only [concurrentAggregate]
      rw [if_pos ht]
      norm_num
  · have hcover2 : ∀ x ∈ results,
        ((decide (200 ≤ x.status_code) && decide (x.status_code < 300)) = true ∧
          decide (400 ≤ x.status_code) = false) ∨
        ((decide (200 ≤ x.status_code) && decide (x.status_code < 300)) = false ∧
          decide (400 ≤ x.status_code) = true) := by
      intro x hx
      rcases hcover x hx with ⟨h1, h2⟩ | h1
      · left
        constructor <;> simp <;> omega
      · right
        constructor <;> simp <;> omega
    simpa [perfAggregate] using
      countP_add_countP_cover results _ _ hcover2

/-- Witness for C8 (amended) at a concrete all-2xx configuration: ten
concurrent GETs that all answer 200 in wall time 2, and a one-item
performance batch answering 201. -/
theorem C8_amended_witness :
    (∃ r : ConcurrentResults,
      stepConcurrentRequests 10 (fun _ => PerRequestOutcome.ok 200 1) 2 =
        Except.ok r ∧
      r.results.length = 10 ∧
      r.success_count + r.failure_count = 10 ∧
      r.requests_per_second = 10 / 2) ∧
    (perfAggregate [⟨201, 1, "corr"⟩] 2).success_count +
        (perfAggregate [⟨201, 1, "corr"⟩] 2).failure_count =
      (perfAggregate [⟨201, 1, "corr"⟩] 2).results.length := by
  exact C8_amended_batch_aggregates (fun _ => PerRequestOutcome.ok 200 1) 2
    (by norm_num) [⟨201, 1, "corr"⟩] 2
    (by intro x hx; simp at hx; subst hx; left; constructor <;> norm_num)

end ApiFramework
